import Mathlib

/-!
Verification development for the armsim AArch64-subset simulator (armsim.py).

The Python source is shallowly embedded: the simulator's global machine state
becomes the structure `SimState`, each dispatch arm of `execute` becomes a
constructor of `Instr` with a matching arm of the Lean `execute`, the run-loop
body becomes `runStep`, and `reset` becomes `reset`.  Python's unbounded
integers are `Int`, the byte list `mem` is `List Nat`, raised exceptions are
`Except.error`.  Host-provided callables bound to linked labels are external
collaborators and are not modelled (a `bl` to a linked label leaves the
machine state untouched apart from the effects the source itself performs).
-/

namespace Armsim

/-- STACK_SIZE constant of the source (4096 bytes of stack). -/
def STACK_SIZE : Int := 4096

/-- HEAP_SIZE constant of the source (0x4000 = 16 KiB heap cap). -/
def HEAP_SIZE : Int := 0x4000

/-- Little-endian base-256 digits of a natural number, fixed length
(the byte list produced by Python int.to_bytes for an in-range value). -/
def natToBytesLE : Nat → Nat → List Nat
  | _, 0 => []
  | n, k + 1 => n % 256 :: natToBytesLE (n / 256) k

/-- Value of a little-endian byte list (Python int.from_bytes, unsigned). -/
def natFromBytesLE : List Nat → Nat
  | [] => 0
  | b :: rest => b + 256 * natFromBytesLE rest

/-- Python int.to_bytes(n, len, 'little', signed=signed); `none` models the
OverflowError raised when the value does not fit. -/
def intToBytesLE (n : Int) (len : Nat) (signed : Bool) : Option (List Nat) :=
  if signed then
    if -(2 ^ (8 * len - 1) : Int) ≤ n ∧ n < (2 ^ (8 * len - 1) : Int) then
      some (natToBytesLE (n % (2 ^ (8 * len) : Int)).toNat len)
    else none
  else
    if 0 ≤ n ∧ n < (2 ^ (8 * len) : Int) then some (natToBytesLE n.toNat len)
    else none

/-- Python int.from_bytes(bytes, 'little', signed=signed) on a byte list. -/
def bytesToIntLE (signed : Bool) (bs : List Nat) : Int :=
  let u := natFromBytesLE bs
  if signed ∧ 2 ^ (8 * bs.length - 1) ≤ u then (u : Int) - 2 ^ (8 * bs.length)
  else u

/-- Clamp a Python slice bound to the interval [0, len]: a negative bound
counts from the end of the list, bounds past the end are clamped. -/
def pyIdx (len : Nat) (i : Int) : Nat :=
  if i < 0 then ((len : Int) + i).toNat else min i.toNat len

/-- Python slice read mem[a:b] (step 1). -/
def pySlice (mem : List Nat) (a b : Int) : List Nat :=
  (mem.take (pyIdx mem.length b)).drop (pyIdx mem.length a)

/-- Python slice assignment mem[a:b] = vals (step 1): splices `vals` in place
of the addressed segment, shifting the tail if lengths differ. -/
def pySliceAssign (mem : List Nat) (a b : Int) (vals : List Nat) : List Nat :=
  let lo := pyIdx mem.length a
  let hi := max lo (pyIdx mem.length b)
  mem.take lo ++ vals ++ mem.drop hi

/-- Python l[:n] for an Int bound n. -/
def pyTakeInt (l : List Nat) (n : Int) : List Nat := l.take (pyIdx l.length n)

/-- Python arithmetic right shift on unbounded ints: x >> n is floor
division by 2 ^ n. -/
def pyShr (x : Int) (n : Nat) : Int := Int.fdiv x (2 ^ n)

/-- Python left shift on unbounded ints. -/
def pyShl (x : Int) (n : Nat) : Int := x * 2 ^ n

/-- The source's `& 0xFFFFFFFFFFFFFFFF` mask in `lsl`/`lsr`: on Python's
two's-complement integers this AND with the all-ones 64-bit mask equals
reduction modulo 2 ^ 64. -/
def mask64 (x : Int) : Int := x % (2 ^ 64)

/-- The register file names of the source's `reg` dict:
x0..x28, fp, lr, sp, xzr. -/
inductive RegName
  | x0 | x1 | x2 | x3 | x4 | x5 | x6 | x7 | x8 | x9
  | x10 | x11 | x12 | x13 | x14 | x15 | x16 | x17 | x18 | x19
  | x20 | x21 | x22 | x23 | x24 | x25 | x26 | x27 | x28
  | fp | lr | sp | xzr
  deriving DecidableEq, Repr

/-- Functional update of the register file (reg[r] = v). -/
def setReg (f : RegName → Int) (r : RegName) (v : Int) : RegName → Int :=
  fun q => if q = r then v else f q

/-- One dispatch arm of the source's `execute` procedure, at the level of
decoded operands.  Suffix `_b` is the `[rn]` addressing mode, `_i` is
`[rn, imm]`, `_r` is `[rn, rm]`.  `sgn` distinguishes `ldursh`/`ldursb`
from `ldurh`/`ldurb` (the source matches both with `ldurs?h` / `ldurs?b`
and tests for the `s` in the line).  `sFlag` is the flag-setting `s`
suffix of add/sub/and/orr/eor.  The decode-stage register/label regexes
and their syntax errors are not modelled.  For `svc`, `stdin` is the byte
string returned by input() (without newline) and `rand` the byte string
produced by os.urandom for getrandom. -/
inductive Instr
  | ldursw_b (rt rn : RegName)
  | ldursw_i (rt rn : RegName) (imm : Int)
  | ldursw_r (rt rn rm : RegName)
  | ldurh_b (sgn : Bool) (rt rn : RegName)
  | ldurh_i (sgn : Bool) (rt rn : RegName) (imm : Int)
  | ldurh_r (sgn : Bool) (rt rn rm : RegName)
  | ldurb_b (sgn : Bool) (rt rn : RegName)
  | ldurb_i (sgn : Bool) (rt rn : RegName) (imm : Int)
  | ldurb_r (sgn : Bool) (rt rn rm : RegName)
  | ldur_var (rt : RegName) (v : String)
  | ldur_b (rt rn : RegName)
  | ldur_i (rt rn : RegName) (imm : Int)
  | ldur_r (rt rn rm : RegName)
  | sturw_b (rt rn : RegName)
  | sturw_i (rt rn : RegName) (imm : Int)
  | sturw_r (rt rn rm : RegName)
  | sturh_b (rt rn : RegName)
  | sturh_i (rt rn : RegName) (imm : Int)
  | sturh_r (rt rn rm : RegName)
  | sturb_b (rt rn : RegName)
  | sturb_i (rt rn : RegName) (imm : Int)
  | sturb_r (rt rn rm : RegName)
  | stur_b (rt rn : RegName)
  | stur_i (rt rn : RegName) (imm : Int)
  | stur_r (rt rn rm : RegName)
  | mov_i (rd : RegName) (imm : Int)
  | mov_r (rd rn : RegName)
  | asr_i (rd rn : RegName) (imm : Int)
  | lsr_i (rd rn : RegName) (imm : Int)
  | lsr_r (rd rn rm : RegName)
  | lsl_i (rd rn : RegName) (imm : Int)
  | lsl_r (rd rn rm : RegName)
  | add_i (sFlag : Bool) (rd rn : RegName) (imm : Int)
  | add_r (sFlag : Bool) (rd rn rm : RegName)
  | sub_i (sFlag : Bool) (rd rn : RegName) (imm : Int)
  | sub_r (sFlag : Bool) (rd rn rm : RegName)
  | mul (rd rn rm : RegName)
  | udiv (rd rn rm : RegName)
  | sdiv (rd rn rm : RegName)
  | cmp_r (rn rm : RegName)
  | cmp_i (rn : RegName) (imm : Int)
  | and_i (sFlag : Bool) (rd rn : RegName) (imm : Int)
  | and_r (sFlag : Bool) (rd rn rm : RegName)
  | orr_i (sFlag : Bool) (rd rn : RegName) (imm : Int)
  | orr_r (sFlag : Bool) (rd rn rm : RegName)
  | eor_i (sFlag : Bool) (rd rn : RegName) (imm : Int)
  | eor_r (sFlag : Bool) (rd rn rm : RegName)
  | cbnz (rn : RegName) (label : String)
  | cbz (rn : RegName) (label : String)
  | b (label : String)
  | blt (label : String)
  | ble (label : String)
  | bgt (label : String)
  | bge (label : String)
  | beq (label : String)
  | bne (label : String)
  | bmi (label : String)
  | bpl (label : String)
  | bl (label : String)
  | br_lr
  | svc (stdin : List Nat) (rand : List Nat)

/-- One entry of the source's `asm` list: either a bare label line
`<name>:` or an instruction line. -/
inductive Line
  | label (name : String)
  | instr (i : Instr)

/-- The simulator's global state: the `reg` dict, the byte list `mem`, the
instruction list `asm`, the symbol table, flags, program counter, the
performance counters and hazard scalars, the heap-break variables, the
label-hit-count dict (keys carry the trailing colon, as in the source),
and the static-rule configuration.  `ld_dst`/`last_dst` are `none` when the
source holds the non-register value -1 (or None).  `linked_labels` keeps
only the keys of the source's dict (labels with trailing colon); the
callable values are host-provided and out of scope. -/
structure SimState where
  reg : RegName → Int
  mem : List Nat
  asm : List Line
  sym_table : String → Option Int
  pc : Nat
  n_flag : Bool
  z_flag : Bool
  cycle_count : Int
  execute_count : Int
  ld_cycle : Int
  ld_dst : Option RegName
  flag_cycle : Int
  last_dst : Option RegName
  brk : Int
  original_break : Int
  label_hit_counts : List (String × Nat)
  forbidden_instructions : List String
  forbid_recursion : Bool
  require_recursion : Bool
  forbid_loops : Bool
  check_dead_code : Bool
  recursive_labels : List String
  linked_labels : List String

/-- The module-level initial values of the source's globals. -/
def baseState : SimState where
  reg := fun _ => 0
  mem := []
  asm := []
  sym_table := fun _ => none
  pc := 0
  n_flag := false
  z_flag := false
  cycle_count := 0
  execute_count := 0
  ld_cycle := -1
  ld_dst := none
  flag_cycle := -1
  last_dst := none
  brk := 0
  original_break := 0
  label_hit_counts := []
  forbidden_instructions := []
  forbid_recursion := false
  require_recursion := false
  forbid_loops := false
  check_dead_code := false
  recursive_labels := []
  linked_labels := []

/-- Lookup in the label-hit-count dict (`none` models a missing key). -/
def hitLookup : List (String × Nat) → String → Option Nat
  | [], _ => none
  | p :: rest, k => if p.1 == k then some p.2 else hitLookup rest k

/-- Increment of the label-hit-count dict at key `k`. -/
def hitBump : List (String × Nat) → String → List (String × Nat)
  | [], _ => []
  | p :: rest, k => (if p.1 == k then (p.1, p.2 + 1) else p) :: hitBump rest k

/-- The source's `asm.index(label + ':')`: position of the bare label line
in the instruction stream (`none` models the ValueError of a missing
label). -/
def labelIdx (asm : List Line) (label : String) : Option Nat :=
  asm.findIdx? (fun l => match l with
    | Line.label n => n == label
    | Line.instr _ => false)

/-- The source's `execute(line)` procedure: dispatches a decoded instruction
against the machine state.  `Except.error` models the exceptions the source
raises (out-of-bounds ValueError, OverflowError of int.to_bytes,
ZeroDivisionError, KeyError of sym_table, assertion failures, missing
branch labels, unsupported syscall numbers).  Each arm mirrors one regex
arm of the source in order; the entry prologue mirrors lines 510-513
(cycle_count += 1, execute_count += 1, last_dst = None). -/
def execute (i : Instr) (s0 : SimState) : Except String SimState :=
  let current_cycle := s0.cycle_count
  let s := { s0 with
    cycle_count := s0.cycle_count + 1
    execute_count := s0.execute_count + 1
    last_dst := none }
  match i with
  | .ldursw_b rt rn =>
    let cyc : Int :=
      if s.ld_dst = some rn ∧ current_cycle - s.ld_cycle ≤ 2 then s.cycle_count + 1
      else s.cycle_count
    let addr := s.reg rn
    if addr < s.reg RegName.sp ∨ addr > (s.mem.length : Int) - 4 then
      Except.error "out of bounds memory access"
    else
      Except.ok { s with
        reg := setReg s.reg rt (bytesToIntLE true (pySlice s.mem addr (addr + 4)))
        cycle_count := cyc, ld_cycle := current_cycle, ld_dst := some rt }
  | .ldursw_i rt rn imm =>
    let cyc : Int :=
      if s.ld_dst = some rn ∧ current_cycle - s.ld_cycle ≤ 2 then
        s.cycle_count + (current_cycle - s.ld_cycle)
      else s.cycle_count
    let addr := s.reg rn + imm
    if addr < s.reg RegName.sp ∨ addr > (s.mem.length : Int) - 2 then
      Except.error "out of bounds memory access"
    else
      Except.ok { s with
        reg := setReg s.reg rt (bytesToIntLE true (pySlice s.mem addr (addr + 4)))
        cycle_count := cyc, ld_cycle := current_cycle, ld_dst := some rt }
  | .ldursw_r rt rn rm =>
    let cyc : Int :=
      if (s.ld_dst = some rn ∨ s.ld_dst = some rm) ∧ current_cycle - s.ld_cycle ≤ 2 then
        s.cycle_count + (current_cycle - s.ld_cycle)
      else s.cycle_count
    let addr := s.reg rn + s.reg rm
    if addr < s.reg RegName.sp ∨ addr > (s.mem.length : Int) - 2 then
      Except.error "out of bounds memory access"
    else
      Except.ok { s with
        reg := setReg s.reg rt (bytesToIntLE true (pySlice s.mem addr (addr + 4)))
        cycle_count := cyc, ld_cycle := current_cycle, ld_dst := some rt }
  | .ldurh_b sgn rt rn =>
    let cyc : Int :=
      if s.ld_dst = some rn ∧ current_cycle - s.ld_cycle ≤ 2 then s.cycle_count + 1
      else s.cycle_count
    let addr := s.reg rn
    if addr < s.reg RegName.sp ∨ addr > (s.mem.length : Int) - 2 then
      Except.error "out of bounds memory access"
    else
      Except.ok { s with
        reg := setReg s.reg rt (bytesToIntLE sgn (pySlice s.mem addr (addr + 2)))
        cycle_count := cyc, ld_cycle := current_cycle, ld_dst := some rt }
  | .ldurh_i sgn rt rn imm =>
    let cyc : Int :=
      if s.ld_dst = some rn ∧ current_cycle - s.ld_cycle ≤ 2 then
        s.cycle_count + (current_cycle - s.ld_cycle)
      else s.cycle_count
    let addr := s.reg rn + imm
    if addr < s.reg RegName.sp ∨ addr > (s.mem.length : Int) - 2 then
      Except.error "out of bounds memory access"
    else
      Except.ok { s with
        reg := setReg s.reg rt (bytesToIntLE sgn (pySlice s.mem addr (addr + 2)))
        cycle_count := cyc, ld_cycle := current_cycle, ld_dst := some rt }
  | .ldurh_r sgn rt rn rm =>
    let cyc : Int :=
      if (s.ld_dst = some rn ∨ s.ld_dst = some rm) ∧ current_cycle - s.ld_cycle ≤ 2 then
        s.cycle_count + (current_cycle - s.ld_cycle)
      else s.cycle_count
    let addr := s.reg rn + s.reg rm
    if addr < s.reg RegName.sp ∨ addr > (s.mem.length : Int) - 2 then
      Except.error "out of bounds memory access"
    else
      Except.ok { s with
        reg := setReg s.reg rt (bytesToIntLE sgn (pySlice s.mem addr (addr + 2)))
        cycle_count := cyc, ld_cycle := current_cycle, ld_dst := some rt }
  | .ldurb_b sgn rt rn =>
    let cyc : Int :=
      if s.ld_dst = some rn ∧ current_cycle - s.ld_cycle ≤ 2 then s.cycle_count + 1
      else s.cycle_count
    let addr := s.reg rn
    if addr < s.reg RegName.sp ∨ addr > (s.mem.length : Int) - 1 then
      Except.error "out of bounds memory access"
    else
      Except.ok { s with
        reg := setReg s.reg rt (bytesToIntLE sgn (pySlice s.mem addr (addr + 1)))
        cycle_count := cyc, ld_cycle := current_cycle, ld_dst := some rt }
  | .ldurb_i sgn rt rn imm =>
    let cyc : Int :=
      if s.ld_dst = some rn ∧ current_cycle - s.ld_cycle ≤ 2 then s.cycle_count + 1
      else s.cycle_count
    let addr := s.reg rn + imm
    if addr < s.reg RegName.sp ∨ addr > (s.mem.length : Int) - 1 then
      Except.error "out of bounds memory access"
    else
      Except.ok { s with
        reg := setReg s.reg rt (bytesToIntLE sgn (pySlice s.mem addr (addr + 1)))
        cycle_count := cyc, ld_cycle := current_cycle, ld_dst := some rt }
  | .ldurb_r sgn rt rn rm =>
    let cyc : Int :=
      if (s.ld_dst = some rn ∨ s.ld_dst = some rm) ∧ current_cycle - s.ld_cycle ≤ 2 then
        s.cycle_count + (current_cycle - s.ld_cycle)
      else s.cycle_count
    let addr := s.reg rn + s.reg rm
    if addr < s.reg RegName.sp ∨ addr > (s.mem.length : Int) - 1 then
      Except.error "out of bounds memory access"
    else
      Except.ok { s with
        reg := setReg s.reg rt (bytesToIntLE sgn (pySlice s.mem addr (addr + 1)))
        cycle_count := cyc, ld_cycle := current_cycle, ld_dst := some rt }
  | .ldur_var rt v =>
    match s.sym_table v with
    | none => Except.error "KeyError"
    | some value =>
      Except.ok { s with
        reg := setReg s.reg rt value
        ld_cycle := current_cycle, ld_dst := some rt }
  | .ldur_b rt rn =>
    let cyc : Int :=
      if s.ld_dst = some rn ∧ current_cycle - s.ld_cycle ≤ 2 then s.cycle_count + 1
      else s.cycle_count
    let addr := s.reg rn
    if addr < s.reg RegName.sp ∨ addr > (s.mem.length : Int) - 8 then
      Except.error "out of bounds memory access"
    else
      Except.ok { s with
        reg := setReg s.reg rt (bytesToIntLE false (pySlice s.mem addr (addr + 8)))
        cycle_count := cyc, ld_cycle := current_cycle, ld_dst := some rt }
  | .ldur_i rt rn imm =>
    let cyc : Int :=
      if s.ld_dst = some rn ∧ current_cycle - s.ld_cycle ≤ 2 then s.cycle_count + 1
      else s.cycle_count
    let addr := s.reg rn + imm
    if addr < s.reg RegName.sp ∨ addr > (s.mem.length : Int) - 8 then
      Except.error "out of bounds memory access"
    else
      Except.ok { s with
        reg := setReg s.reg rt (bytesToIntLE false (pySlice s.mem addr (addr + 8)))
        cycle_count := cyc, ld_cycle := current_cycle, ld_dst := some rt }
  | .ldur_r rt rn rm =>
    let cyc : Int :=
      if (s.ld_dst = some rn ∨ s.ld_dst = some rm) ∧ current_cycle - s.ld_cycle ≤ 2 then
        s.cycle_count + 1
      else s.cycle_count
    let addr := s.reg rn + s.reg rm
    if addr < s.reg RegName.sp ∨ addr > (s.mem.length : Int) - 8 then
      Except.error "out of bounds memory access"
    else
      Except.ok { s with
        reg := setReg s.reg rt (bytesToIntLE false (pySlice s.mem addr (addr + 8)))
        cycle_count := cyc, ld_cycle := current_cycle, ld_dst := some rt }
  | .sturw_b rt rn =>
    let cyc : Int :=
      if s.ld_dst = some rn ∧ current_cycle - s.ld_cycle ≤ 2 then
        s.cycle_count + (current_cycle - s.ld_cycle)
      else s.cycle_count
    let addr := s.reg rn
    if addr < s.reg RegName.sp ∨ addr > (s.mem.length : Int) - 2 then
      Except.error "out of bounds memory access"
    else
      match intToBytesLE (s.reg rt) 8 true with
      | none => Except.error "OverflowError"
      | some register_bytes =>
        Except.ok { s with
          mem := pySliceAssign s.mem addr (addr + 4) (register_bytes.take 4)
          cycle_count := cyc }
  | .sturw_i rt rn imm =>
    let cyc : Int :=
      if s.ld_dst = some rn ∧ current_cycle - s.ld_cycle ≤ 2 then
        s.cycle_count + (current_cycle - s.ld_cycle)
      else s.cycle_count
    let addr := s.reg rn + imm
    if addr < s.reg RegName.sp ∨ addr > (s.mem.length : Int) - 2 then
      Except.error "out of bounds memory access"
    else
      match intToBytesLE (s.reg rt) 8 true with
      | none => Except.error "OverflowError"
      | some register_bytes =>
        Except.ok { s with
          mem := pySliceAssign s.mem addr (addr + 4) (register_bytes.take 4)
          cycle_count := cyc }
  | .sturw_r rt rn rm =>
    let cyc : Int :=
      if (s.ld_dst = some rn ∨ s.ld_dst = some rm) ∧ current_cycle - s.ld_cycle ≤ 2 then
        s.cycle_count + 1
      else s.cycle_count
    let addr := s.reg rn + s.reg rm
    if addr < s.reg RegName.sp ∨ addr > (s.mem.length : Int) - 2 then
      Except.error "out of bounds memory access"
    else
      match intToBytesLE (s.reg rt) 8 true with
      | none => Except.error "OverflowError"
      | some register_bytes =>
        Except.ok { s with
          mem := pySliceAssign s.mem addr (addr + 4) (register_bytes.take 4)
          cycle_count := cyc }
  | .sturh_b rt rn =>
    let cyc : Int :=
      if s.ld_dst = some rn ∧ current_cycle - s.ld_cycle ≤ 2 then
        s.cycle_count + (current_cycle - s.ld_cycle)
      else s.cycle_count
    let addr := s.reg rn
    if addr < s.reg RegName.sp ∨ addr > (s.mem.length : Int) - 2 then
      Except.error "out of bounds memory access"
    else
      match intToBytesLE (s.reg rt) 8 true with
      | none => Except.error "OverflowError"
      | some register_bytes =>
        Except.ok { s with
          mem := pySliceAssign s.mem addr (addr + 2) (register_bytes.take 2)
          cycle_count := cyc }
  | .sturh_i rt rn imm =>
    let cyc : Int :=
      if s.ld_dst = some rn ∧ current_cycle - s.ld_cycle ≤ 2 then
        s.cycle_count + (current_cycle - s.ld_cycle)
      else s.cycle_count
    let addr := s.reg rn + imm
    if addr < s.reg RegName.sp ∨ addr > (s.mem.length : Int) - 2 then
      Except.error "out of bounds memory access"
    else
      match intToBytesLE (s.reg rt) 8 true with
      | none => Except.error "OverflowError"
      | some register_bytes =>
        Except.ok { s with
          mem := pySliceAssign s.mem addr (addr + 2) (register_bytes.take 2)
          cycle_count := cyc }
  | .sturh_r rt rn rm =>
    let cyc : Int :=
      if (s.ld_dst = some rn ∨ s.ld_dst = some rm) ∧ current_cycle - s.ld_cycle ≤ 2 then
        s.cycle_count + 1
      else s.cycle_count
    let addr := s.reg rn + s.reg rm
    if addr < s.reg RegName.sp ∨ addr > (s.mem.length : Int) - 2 then
      Except.error "out of bounds memory access"
    else
      match intToBytesLE (s.reg rt) 8 true with
      | none => Except.error "OverflowError"
      | some register_bytes =>
        Except.ok { s with
          mem := pySliceAssign s.mem addr (addr + 2) (register_bytes.take 2)
          cycle_count := cyc }
  | .sturb_b rt rn =>
    let cyc : Int :=
      if s.ld_dst = some rn ∧ current_cycle - s.ld_cycle ≤ 2 then
        s.cycle_count + (current_cycle - s.ld_cycle)
      else s.cycle_count
    let addr := s.reg rn
    if addr < s.reg RegName.sp ∨ addr > (s.mem.length : Int) - 1 then
      Except.error "out of bounds memory access"
    else
      match intToBytesLE (s.reg rt) 8 true with
      | none => Except.error "OverflowError"
      | some register_bytes =>
        Except.ok { s with
          mem := pySliceAssign s.mem addr (addr + 1) (register_bytes.take 1)
          cycle_count := cyc }
  | .sturb_i rt rn imm =>
    let cyc : Int :=
      if s.ld_dst = some rn ∧ current_cycle - s.ld_cycle ≤ 2 then
        s.cycle_count + (current_cycle - s.ld_cycle)
      else s.cycle_count
    let addr := s.reg rn + imm
    if addr < s.reg RegName.sp ∨ addr > (s.mem.length : Int) - 1 then
      Except.error "out of bounds memory access"
    else
      match intToBytesLE (s.reg rt) 8 true with
      | none => Except.error "OverflowError"
      | some register_bytes =>
        Except.ok { s with
          mem := pySliceAssign s.mem addr (addr + 1) (register_bytes.take 1)
          cycle_count := cyc }
  | .sturb_r rt rn rm =>
    let cyc : Int :=
      if (s.ld_dst = some rn ∨ s.ld_dst = some rm) ∧ current_cycle - s.ld_cycle ≤ 2 then
        s.cycle_count + 1
      else s.cycle_count
    let addr := s.reg rn + s.reg rm
    if addr < s.reg RegName.sp ∨ addr > (s.mem.length : Int) - 1 then
      Except.error "out of bounds memory access"
    else
      match intToBytesLE (s.reg rt) 8 true with
      | none => Except.error "OverflowError"
      | some register_bytes =>
        Except.ok { s with
          mem := pySliceAssign s.mem addr (addr + 1) (register_bytes.take 1)
          cycle_count := cyc }
  | .stur_b rt rn =>
    let cyc : Int :=
      if s.ld_dst = some rn ∧ current_cycle - s.ld_cycle ≤ 2 then
        s.cycle_count + (current_cycle - s.ld_cycle)
      else s.cycle_count
    let addr := s.reg rn
    if addr < s.reg RegName.sp ∨ addr > (s.mem.length : Int) - 8 then
      Except.error "out of bounds memory access"
    else
      match intToBytesLE (s.reg rt) 8 false with
      | none => Except.error "OverflowError"
      | some register_bytes =>
        Except.ok { s with
          mem := pySliceAssign s.mem addr (addr + 8) register_bytes
          cycle_count := cyc }
  | .stur_i rt rn imm =>
    let addr := s.reg rn + imm
    if addr < s.reg RegName.sp ∨ addr > (s.mem.length : Int) - 8 then
      Except.error "out of bounds memory access"
    else
      match intToBytesLE (s.reg rt) 8 false with
      | none => Except.error "OverflowError"
      | some register_bytes =>
        Except.ok { s with
          mem := pySliceAssign s.mem addr (addr + 8) register_bytes }
  | .stur_r rt rn rm =>
    let cyc : Int :=
      if (s.ld_dst = some rn ∨ s.ld_dst = some rm) ∧ current_cycle - s.ld_cycle ≤ 2 then
        s.cycle_count + 1
      else s.cycle_count
    let addr := s.reg rn + s.reg rm
    if addr < s.reg RegName.sp ∨ addr > (s.mem.length : Int) - 8 then
      Except.error "out of bounds memory access"
    else
      match intToBytesLE (s.reg rt) 8 false with
      | none => Except.error "OverflowError"
      | some register_bytes =>
        Except.ok { s with
          mem := pySliceAssign s.mem addr (addr + 8) register_bytes
          cycle_count := cyc }
  | .mov_i rd imm =>
    Except.ok { s with reg := setReg s.reg rd imm, last_dst := some rd }
  | .mov_r rd rn =>
    let cyc : Int :=
      if s.ld_dst = some rn ∧ current_cycle - s.ld_cycle ≤ 2 then s.cycle_count + 1
      else s.cycle_count
    Except.ok { s with
      reg := setReg s.reg rd (s.reg rn), cycle_count := cyc, last_dst := some rd }
  | .asr_i rd rn imm =>
    let cyc : Int :=
      if s.ld_dst = some rn ∧ current_cycle - s.ld_cycle ≤ 2 then
        s.cycle_count + (current_cycle - s.ld_cycle)
      else s.cycle_count
    if imm < 0 then Except.error "negative shift count"
    else
      Except.ok { s with
        reg := setReg s.reg rd (pyShr (s.reg rn) imm.toNat)
        cycle_count := cyc, last_dst := some rd }
  | .lsr_i rd rn imm =>
    let cyc : Int :=
      if s.ld_dst = some rn ∧ current_cycle - s.ld_cycle ≤ 2 then
        s.cycle_count + (current_cycle - s.ld_cycle)
      else s.cycle_count
    if imm < 0 then Except.error "negative shift count"
    else
      Except.ok { s with
        reg := setReg s.reg rd (pyShr (mask64 (s.reg rn)) imm.toNat)
        cycle_count := cyc, last_dst := some rd }
  | .lsr_r rd rn rm =>
    let cyc : Int :=
      if (s.ld_dst = some rn ∨ s.ld_dst = some rm) ∧ current_cycle - s.ld_cycle ≤ 2 then
        s.cycle_count + 1
      else s.cycle_count
    if s.reg rm < (0 : Int) then Except.error "negative shift count"
    else
      Except.ok { s with
        reg := setReg s.reg rd (pyShr (mask64 (s.reg rn)) (s.reg rm).toNat)
        cycle_count := cyc, last_dst := some rd }
  | .lsl_i rd rn imm =>
    let cyc : Int :=
      if s.ld_dst = some rn ∧ current_cycle - s.ld_cycle ≤ 2 then
        s.cycle_count + (current_cycle - s.ld_cycle)
      else s.cycle_count
    if imm < 0 then Except.error "negative shift count"
    else
      Except.ok { s with
        reg := setReg s.reg rd (mask64 (pyShl (s.reg rn) imm.toNat))
        cycle_count := cyc, last_dst := some rd }
  | .lsl_r rd rn rm =>
    let cyc : Int :=
      if (s.ld_dst = some rn ∨ s.ld_dst = some rm) ∧ current_cycle - s.ld_cycle ≤ 2 then
        s.cycle_count + 1
      else s.cycle_count
    if s.reg rm < (0 : Int) then Except.error "negative shift count"
    else
      Except.ok { s with
        reg := setReg s.reg rd (mask64 (pyShl (s.reg rn) (s.reg rm).toNat))
        cycle_count := cyc, last_dst := some rd }
  | .add_i sFlag rd rn imm =>
    let cyc : Int :=
      if s.ld_dst = some rn ∧ current_cycle - s.ld_cycle ≤ 1 then s.cycle_count + 1
      else s.cycle_count
    let res := s.reg rn + imm
    if sFlag then
      Except.ok { s with
        reg := setReg s.reg rd res, cycle_count := cyc
        n_flag := decide (res < 0), z_flag := decide (res = 0)
        flag_cycle := current_cycle, last_dst := some rd }
    else
      Except.ok { s with
        reg := setReg s.reg rd res, cycle_count := cyc, last_dst := some rd }
  | .add_r sFlag rd rn rm =>
    let cyc : Int :=
      if (s.ld_dst = some rn ∨ s.ld_dst = some rm) ∧ current_cycle - s.ld_cycle ≤ 2 then
        s.cycle_count + 1
      else s.cycle_count
    let res := s.reg rn + s.reg rm
    if sFlag then
      Except.ok { s with
        reg := setReg s.reg rd res, cycle_count := cyc
        n_flag := decide (res < 0), z_flag := decide (res = 0)
        flag_cycle := current_cycle, last_dst := some rd }
    else
      Except.ok { s with
        reg := setReg s.reg rd res, cycle_count := cyc, last_dst := some rd }
  | .sub_i sFlag rd rn imm =>
    let cyc : Int :=
      if s.ld_dst = some rn ∧ current_cycle - s.ld_cycle ≤ 2 then
        s.cycle_count + (current_cycle - s.ld_cycle)
      else s.cycle_count
    let res := s.reg rn - imm
    if sFlag then
      Except.ok { s with
        reg := setReg s.reg rd res, cycle_count := cyc
        n_flag := decide (res < 0), z_flag := decide (res = 0)
        flag_cycle := current_cycle, last_dst := some rd }
    else
      Except.ok { s with
        reg := setReg s.reg rd res, cycle_count := cyc, last_dst := some rd }
  | .sub_r sFlag rd rn rm =>
    let cyc : Int :=
      if (s.ld_dst = some rn ∨ s.ld_dst = some rm) ∧ current_cycle - s.ld_cycle ≤ 2 then
        s.cycle_count + 1
      else s.cycle_count
    let res := s.reg rn - s.reg rm
    if sFlag then
      Except.ok { s with
        reg := setReg s.reg rd res, cycle_count := cyc
        n_flag := decide (res < 0), z_flag := decide (res = 0)
        flag_cycle := current_cycle, last_dst := some rd }
    else
      Except.ok { s with
        reg := setReg s.reg rd res, cycle_count := cyc, last_dst := some rd }
  | .mul rd rn rm =>
    let cyc : Int :=
      if (s.ld_dst = some rn ∨ s.ld_dst = some rm) ∧ current_cycle - s.ld_cycle ≤ 2 then
        s.cycle_count + 1
      else s.cycle_count
    Except.ok { s with
      reg := setReg s.reg rd (s.reg rn * s.reg rm)
      cycle_count := cyc + 4, last_dst := some rd }
  | .udiv rd rn rm =>
    let cyc : Int :=
      if (s.ld_dst = some rn ∨ s.ld_dst = some rm) ∧ current_cycle - s.ld_cycle ≤ 2 then
        s.cycle_count + 1
      else s.cycle_count
    if s.reg rm = (0 : Int) then Except.error "ZeroDivisionError"
    else
      Except.ok { s with
        reg := setReg s.reg rd (Int.fdiv (s.reg rn) (s.reg rm))
        cycle_count := cyc, last_dst := some rd }
  | .sdiv rd rn rm =>
    let cyc : Int :=
      if (s.ld_dst = some rn ∨ s.ld_dst = some rm) ∧ current_cycle - s.ld_cycle ≤ 2 then
        s.cycle_count + 1
      else s.cycle_count
    if s.reg rm = (0 : Int) then Except.error "ZeroDivisionError"
    else
      Except.ok { s with
        reg := setReg s.reg rd (Int.fdiv (s.reg rn) (s.reg rm))
        cycle_count := cyc, last_dst := some rd }
  | .cmp_r rn rm =>
    let cyc : Int :=
      if (s.ld_dst = some rn ∨ s.ld_dst = some rm) ∧ current_cycle - s.ld_cycle ≤ 2 then
        s.cycle_count + 1
      else s.cycle_count
    if rm = RegName.sp then Except.error "2nd register in cmp must not be sp"
    else
      Except.ok { s with
        cycle_count := cyc
        z_flag := decide (s.reg rn = s.reg rm), n_flag := decide (s.reg rn < s.reg rm)
        flag_cycle := current_cycle, last_dst := some rn }
  | .cmp_i rn imm =>
    let cyc : Int :=
      if s.ld_dst = some rn ∧ current_cycle - s.ld_cycle ≤ 2 then s.cycle_count + 1
      else s.cycle_count
    Except.ok { s with
      cycle_count := cyc
      z_flag := decide (s.reg rn = imm), n_flag := decide (s.reg rn < imm)
      flag_cycle := current_cycle, last_dst := some rn }
  | .and_i sFlag rd rn imm =>
    let cyc : Int :=
      if s.ld_dst = some rn ∧ current_cycle - s.ld_cycle ≤ 2 then
        s.cycle_count + (current_cycle - s.ld_cycle)
      else s.cycle_count
    let res := Int.land (s.reg rn) imm
    if sFlag then
      Except.ok { s with
        reg := setReg s.reg rd res, cycle_count := cyc
        n_flag := decide (res < 0), z_flag := decide (res = 0)
        flag_cycle := current_cycle, last_dst := some rd }
    else
      Except.ok { s with
        reg := setReg s.reg rd res, cycle_count := cyc, last_dst := some rd }
  | .and_r sFlag rd rn rm =>
    let cyc : Int :=
      if (s.ld_dst = some rn ∨ s.ld_dst = some rm) ∧ current_cycle - s.ld_cycle ≤ 2 then
        s.cycle_count + 1
      else s.cycle_count
    let res := Int.land (s.reg rn) (s.reg rm)
    if sFlag then
      Except.ok { s with
        reg := setReg s.reg rd res, cycle_count := cyc
        n_flag := decide (res < 0), z_flag := decide (res = 0)
        flag_cycle := current_cycle, last_dst := some rd }
    else
      Except.ok { s with
        reg := setReg s.reg rd res, cycle_count := cyc, last_dst := some rd }
  | .orr_i sFlag rd rn imm =>
    let cyc : Int :=
      if s.ld_dst = some rn ∧ current_cycle - s.ld_cycle ≤ 2 then
        s.cycle_count + (current_cycle - s.ld_cycle)
      else s.cycle_count
    let res := Int.lor (s.reg rn) imm
    if sFlag then
      Except.ok { s with
        reg := setReg s.reg rd res, cycle_count := cyc
        n_flag := decide (res < 0), z_flag := decide (res = 0)
        flag_cycle := current_cycle, last_dst := some rd }
    else
      Except.ok { s with
        reg := setReg s.reg rd res, cycle_count := cyc, last_dst := some rd }
  | .orr_r sFlag rd rn rm =>
    let cyc : Int :=
      if (s.ld_dst = some rn ∨ s.ld_dst = some rm) ∧ current_cycle - s.ld_cycle ≤ 2 then
        s.cycle_count + 1
      else s.cycle_count
    let res := Int.lor (s.reg rn) (s.reg rm)
    if sFlag then
      Except.ok { s with
        reg := setReg s.reg rd res, cycle_count := cyc
        n_flag := decide (res < 0), z_flag := decide (res = 0)
        flag_cycle := current_cycle, last_dst := some rd }
    else
      Except.ok { s with
        reg := setReg s.reg rd res, cycle_count := cyc, last_dst := some rd }
  | .eor_i sFlag rd rn imm =>
    let cyc : Int :=
      if s.ld_dst = some rn ∧ current_cycle - s.ld_cycle ≤ 2 then
        s.cycle_count + (current_cycle - s.ld_cycle)
      else s.cycle_count
    let res := Int.xor (s.reg rn) imm
    if sFlag then
      Except.ok { s with
        reg := setReg s.reg rd res, cycle_count := cyc
        n_flag := decide (res < 0), z_flag := decide (res = 0)
        flag_cycle := current_cycle, last_dst := some rd }
    else
      Except.ok { s with
        reg := setReg s.reg rd res, cycle_count := cyc, last_dst := some rd }
  | .eor_r sFlag rd rn rm =>
    let cyc : Int :=
      if (s.ld_dst = some rn ∨ s.ld_dst = some rm) ∧ current_cycle - s.ld_cycle ≤ 2 then
        s.cycle_count + 1
      else s.cycle_count
    let res := Int.xor (s.reg rn) (s.reg rm)
    if sFlag then
      Except.ok { s with
        reg := setReg s.reg rd res, cycle_count := cyc
        n_flag := decide (res < 0), z_flag := decide (res = 0)
        flag_cycle := current_cycle, last_dst := some rd }
    else
      Except.ok { s with
        reg := setReg s.reg rd res, cycle_count := cyc, last_dst := some rd }
  | .cbnz rn label =>
    let cyc : Int :=
      if s.last_dst = some rn then s.cycle_count + 1
      else if s.ld_dst = some rn ∧ current_cycle - s.ld_cycle ≤ 2 then
        s.cycle_count + (3 - (current_cycle - s.ld_cycle))
      else s.cycle_count
    if s.reg rn ≠ (0 : Int) then
      match labelIdx s.asm label with
      | none => Except.error "label is not in list"
      | some idx => Except.ok { s with pc := idx, cycle_count := cyc + 1 }
    else Except.ok { s with cycle_count := cyc }
  | .cbz rn label =>
    let cyc : Int :=
      if s.last_dst = some rn then s.cycle_count + 1
      else if s.ld_dst = some rn ∧ current_cycle - s.ld_cycle ≤ 2 then
        s.cycle_count + (3 - (current_cycle - s.ld_cycle))
      else s.cycle_count
    if s.reg rn = (0 : Int) then
      match labelIdx s.asm label with
      | none => Except.error "label is not in list"
      | some idx => Except.ok { s with pc := idx, cycle_count := cyc + 1 }
    else Except.ok { s with cycle_count := cyc }
  | .b label =>
    match labelIdx s.asm label with
    | none => Except.error "label is not in list"
    | some idx => Except.ok { s with pc := idx, cycle_count := s.cycle_count + 1 }
  | .blt label =>
    let cyc : Int :=
      if current_cycle - s.flag_cycle ≤ 1 then s.cycle_count + 1 else s.cycle_count
    if s.n_flag then
      match labelIdx s.asm label with
      | none => Except.error "label is not in list"
      | some idx => Except.ok { s with pc := idx, cycle_count := cyc + 1 }
    else Except.ok { s with cycle_count := cyc }
  | .ble label =>
    let cyc : Int :=
      if current_cycle - s.flag_cycle ≤ 1 then s.cycle_count + 1 else s.cycle_count
    if s.n_flag ∨ s.z_flag then
      match labelIdx s.asm label with
      | none => Except.error "label is not in list"
      | some idx => Except.ok { s with pc := idx, cycle_count := cyc + 1 }
    else Except.ok { s with cycle_count := cyc }
  | .bgt label =>
    let cyc : Int :=
      if current_cycle - s.flag_cycle ≤ 1 then s.cycle_count + 1 else s.cycle_count
    if ¬s.z_flag ∧ ¬s.n_flag then
      match labelIdx s.asm label with
      | none => Except.error "label is not in list"
      | some idx => Except.ok { s with pc := idx, cycle_count := cyc + 1 }
    else Except.ok { s with cycle_count := cyc }
  | .bge label =>
    let cyc : Int :=
      if current_cycle - s.flag_cycle ≤ 1 then s.cycle_count + 1 else s.cycle_count
    if ¬s.n_flag then
      match labelIdx s.asm label with
      | none => Except.error "label is not in list"
      | some idx => Except.ok { s with pc := idx, cycle_count := cyc + 1 }
    else Except.ok { s with cycle_count := cyc }
  | .beq label =>
    let cyc : Int :=
      if current_cycle - s.flag_cycle ≤ 1 then s.cycle_count + 1 else s.cycle_count
    if s.z_flag then
      match labelIdx s.asm label with
      | none => Except.error "label is not in list"
      | some idx => Except.ok { s with pc := idx, cycle_count := cyc + 1 }
    else Except.ok { s with cycle_count := cyc }
  | .bne label =>
    let cyc : Int :=
      if current_cycle - s.flag_cycle ≤ 1 then s.cycle_count + 1 else s.cycle_count
    if ¬s.z_flag then
      match labelIdx s.asm label with
      | none => Except.error "label is not in list"
      | some idx => Except.ok { s with pc := idx, cycle_count := cyc + 1 }
    else Except.ok { s with cycle_count := cyc }
  | .bmi label =>
    if s.n_flag then
      match labelIdx s.asm label with
      | none => Except.error "label is not in list"
      | some idx => Except.ok { s with pc := idx, cycle_count := s.cycle_count + 1 }
    else Except.ok s
  | .bpl label =>
    let cyc : Int :=
      if current_cycle - s.flag_cycle ≤ 1 then s.cycle_count + 1 else s.cycle_count
    if ¬s.n_flag ∨ s.z_flag then
      match labelIdx s.asm label with
      | none => Except.error "label is not in list"
      | some idx => Except.ok { s with pc := idx, cycle_count := cyc + 1 }
    else Except.ok { s with cycle_count := cyc }
  | .bl label =>
    let cyc : Int :=
      if current_cycle - s.flag_cycle ≤ 1 then s.cycle_count + 1 else s.cycle_count
    let lab := label ++ ":"
    let s := { s with
      reg := setReg s.reg RegName.lr (s.pc : Int)
      label_hit_counts :=
        if (hitLookup s.label_hit_counts lab).isSome then hitBump s.label_hit_counts lab
        else s.label_hit_counts }
    if s.linked_labels.contains lab then
      Except.ok { s with cycle_count := cyc + 1 }
    else
      match labelIdx s.asm label with
      | none => Except.error "label is not in list"
      | some idx => Except.ok { s with pc := idx, cycle_count := cyc + 1 }
  | .br_lr =>
    let addr := s.reg RegName.lr
    if 0 ≤ addr ∧ addr < (s.asm.length : Int) then
      Except.ok { s with pc := addr.toNat, cycle_count := s.cycle_count + 1 }
    else Except.error "ret: address in LR out of range"
  | .svc stdin rand =>
    let syscall := s.reg RegName.x8
    if syscall = 93 then
      Except.ok { s with pc := s.asm.length }
    else if syscall = 64 then
      if s.reg RegName.x0 ≠ 1 then Except.error "Can only write to stdout"
      else
        let output := pySlice s.mem (s.reg RegName.x1) (s.reg RegName.x1 + s.reg RegName.x2)
        if output.all (fun byte => byte < 128) then Except.ok s
        else Except.error "UnicodeDecodeError"
    else if syscall = 63 then
      let length := s.reg RegName.x2
      let addr := s.reg RegName.x1
      let enter := pyTakeInt (stdin ++ [10]) length
      Except.ok { s with
        mem := pySliceAssign s.mem addr (addr + enter.length) enter
        reg := setReg s.reg RegName.x0 (enter.length : Int) }
    else if syscall = 214 then
      let new_brk := s.reg RegName.x0
      if new_brk < s.original_break then
        Except.ok { s with reg := setReg s.reg RegName.x0 s.brk }
      else if new_brk = s.original_break then
        Except.ok { s with
          brk := new_brk
          reg := setReg s.reg RegName.x0 new_brk
          mem := pySlice s.mem 0 s.original_break }
      else
        let break_size := new_brk - s.original_break
        let page := (break_size + 0x1000) - break_size % 0x1000
        if page > HEAP_SIZE then Except.error "break size too large"
        else
          let newMem :=
            if (s.mem.length : Int) > page + s.original_break then
              pySlice s.mem 0 (page + s.original_break)
            else s.mem ++ List.replicate page.toNat 0
          Except.ok { s with mem := newMem, brk := s.reg RegName.x0 }
    else if syscall = 278 then
      let addr := s.reg RegName.x0
      let quantity := s.reg RegName.x1
      Except.ok { s with
        mem := pySliceAssign s.mem addr (addr + quantity) rand
        reg := setReg s.reg RegName.x0 quantity }
    else Except.error "Unsupported system call"

/-- One iteration of the source's `run()` loop for the fetched line
(asm[pc]): record recursion when a `bl` is re-entered at the saved return
address, apply the three stack checks, then either advance over a bare
label (bumping its hit count, KeyError if the label is not a key) or
execute the instruction, reset `xzr` and advance the program counter.
`recursed` threads the loop-local `recursed_labels` set. -/
def runStep (line : Line) (s : SimState) (recursed : List String) :
    Except String (SimState × List String) :=
  let recursed :=
    match line with
    | Line.instr (Instr.bl lab) =>
      if (s.pc : Int) = s.reg RegName.lr then
        if recursed.contains lab then recursed else recursed ++ [lab]
      else recursed
    | _ => recursed
  if s.reg RegName.sp < 0 then Except.error "stack overflow"
  else if s.reg RegName.sp > STACK_SIZE then Except.error "stack underflow"
  else if (s.reg RegName.sp + 1) % 16 ≠ 0 then Except.error "Alignment error"
  else
    match line with
    | Line.label name =>
      match hitLookup s.label_hit_counts (name ++ ":") with
      | none => Except.error "KeyError"
      | some _ =>
        Except.ok ({ s with
          pc := s.pc + 1
          label_hit_counts := hitBump s.label_hit_counts (name ++ ":") }, recursed)
    | Line.instr i =>
      match execute i s with
      | Except.error e => Except.error e
      | Except.ok s1 =>
        Except.ok ({ s1 with reg := setReg s1.reg RegName.xzr 0, pc := s1.pc + 1 }, recursed)

/-- The source's `reset()` procedure: clears the forbidden-instruction set,
the three recursion/loop flags, the register file, memory, the instruction
stream, the symbol table, both flags, the program counter, both counters,
the four hazard scalars, and the linked-label dict.  All other globals
(check_dead_code, recursive_labels, brk, original_break,
label_hit_counts) are untouched. -/
def reset (s : SimState) : SimState :=
  { s with
    forbidden_instructions := []
    require_recursion := false
    forbid_recursion := false
    forbid_loops := false
    reg := fun _ => 0
    mem := []
    asm := []
    sym_table := fun _ => none
    n_flag := false
    z_flag := false
    pc := 0
    cycle_count := 0
    execute_count := 0
    ld_cycle := -1
    ld_dst := none
    flag_cycle := -1
    last_dst := none
    linked_labels := [] }

/-- The architectural access width W (in bytes) of each load/store memory
form: ldur/stur 8, ldursw/sturw 4, ldurh/ldursh/sturh 2, ldurb/ldursb/sturb
1; `none` for instructions that do not access memory through an address
(including `ldur rt,=var`). -/
def memAccessWidth : Instr → Option Nat
  | .ldursw_b _ _ | .ldursw_i _ _ _ | .ldursw_r _ _ _ => some 4
  | .ldurh_b _ _ _ | .ldurh_i _ _ _ _ | .ldurh_r _ _ _ _ => some 2
  | .ldurb_b _ _ _ | .ldurb_i _ _ _ _ | .ldurb_r _ _ _ _ => some 1
  | .ldur_b _ _ | .ldur_i _ _ _ | .ldur_r _ _ _ => some 8
  | .sturw_b _ _ | .sturw_i _ _ _ | .sturw_r _ _ _ => some 4
  | .sturh_b _ _ | .sturh_i _ _ _ | .sturh_r _ _ _ => some 2
  | .sturb_b _ _ | .sturb_i _ _ _ | .sturb_r _ _ _ => some 1
  | .stur_b _ _ | .stur_i _ _ _ | .stur_r _ _ _ => some 8
  | _ => none

/-- The width actually used by the source's out-of-bounds check
(`addr > len(mem) - checkWidth`) for each load/store memory form.  It
coincides with `memAccessWidth` except that `ldursw rt,[rn,imm]`,
`ldursw rt,[rn,rm]` and all three `sturw` forms check with 2 instead
of their access width 4. -/
def checkWidth : Instr → Option Nat
  | .ldursw_b _ _ => some 4
  | .ldursw_i _ _ _ | .ldursw_r _ _ _ => some 2
  | .ldurh_b _ _ _ | .ldurh_i _ _ _ _ | .ldurh_r _ _ _ _ => some 2
  | .ldurb_b _ _ _ | .ldurb_i _ _ _ _ | .ldurb_r _ _ _ _ => some 1
  | .ldur_b _ _ | .ldur_i _ _ _ | .ldur_r _ _ _ => some 8
  | .sturw_b _ _ | .sturw_i _ _ _ | .sturw_r _ _ _ => some 2
  | .sturh_b _ _ | .sturh_i _ _ _ | .sturh_r _ _ _ => some 2
  | .sturb_b _ _ | .sturb_i _ _ _ | .sturb_r _ _ _ => some 1
  | .stur_b _ _ | .stur_i _ _ _ | .stur_r _ _ _ => some 8
  | _ => none

/-- The effective address computed by each load/store memory form (value
of the source's local `addr`); 0 for other instructions. -/
def effectiveAddr (i : Instr) (s : SimState) : Int :=
  match i with
  | .ldursw_b _ rn => s.reg rn
  | .ldursw_i _ rn imm => s.reg rn + imm
  | .ldursw_r _ rn rm => s.reg rn + s.reg rm
  | .ldurh_b _ _ rn => s.reg rn
  | .ldurh_i _ _ rn imm => s.reg rn + imm
  | .ldurh_r _ _ rn rm => s.reg rn + s.reg rm
  | .ldurb_b _ _ rn => s.reg rn
  | .ldurb_i _ _ rn imm => s.reg rn + imm
  | .ldurb_r _ _ rn rm => s.reg rn + s.reg rm
  | .ldur_b _ rn => s.reg rn
  | .ldur_i _ rn imm => s.reg rn + imm
  | .ldur_r _ rn rm => s.reg rn + s.reg rm
  | .sturw_b _ rn => s.reg rn
  | .sturw_i _ rn imm => s.reg rn + imm
  | .sturw_r _ rn rm => s.reg rn + s.reg rm
  | .sturh_b _ rn => s.reg rn
  | .sturh_i _ rn imm => s.reg rn + imm
  | .sturh_r _ rn rm => s.reg rn + s.reg rm
  | .sturb_b _ rn => s.reg rn
  | .sturb_i _ rn imm => s.reg rn + imm
  | .sturb_r _ rn rm => s.reg rn + s.reg rm
  | .stur_b _ rn => s.reg rn
  | .stur_i _ rn imm => s.reg rn + imm
  | .stur_r _ rn rm => s.reg rn + s.reg rm
  | _ => 0

/-- For store forms, the condition under which Python int.to_bytes can
encode the stored register (no OverflowError): the signed 64-bit range for
sturw/sturh/sturb (which encode with signed=True) and the unsigned 64-bit
range for stur.  True for every other instruction. -/
def storeValOk (i : Instr) (s : SimState) : Prop :=
  match i with
  | .sturw_b rt _ | .sturw_i rt _ _ | .sturw_r rt _ _
  | .sturh_b rt _ | .sturh_i rt _ _ | .sturh_r rt _ _
  | .sturb_b rt _ | .sturb_i rt _ _ | .sturb_r rt _ _ =>
    -(2 ^ 63) ≤ s.reg rt ∧ s.reg rt < 2 ^ 63
  | .stur_b rt _ | .stur_i rt _ _ | .stur_r rt _ _ =>
    0 ≤ s.reg rt ∧ s.reg rt < 2 ^ 64
  | _ => True

/-- The instruction forms whose dispatch arm writes the N/Z flags: `cmp`
and the s-suffixed add/sub/and/orr/eor forms. -/
def writesFlags : Instr → Bool
  | .cmp_r _ _ | .cmp_i _ _ => true
  | .add_i sFlag _ _ _ | .add_r sFlag _ _ _
  | .sub_i sFlag _ _ _ | .sub_r sFlag _ _ _
  | .and_i sFlag _ _ _ | .and_r sFlag _ _ _
  | .orr_i sFlag _ _ _ | .orr_r sFlag _ _ _
  | .eor_i sFlag _ _ _ | .eor_r sFlag _ _ _ => sFlag
  | _ => false

/-- The result value from which a flag-writing form derives N and Z: the
value written to rd for the s-suffixed forms, and reg[rn] minus the second
operand for cmp.  0 for non-writers. -/
def flagResult (i : Instr) (s : SimState) : Int :=
  match i with
  | .cmp_r rn rm => s.reg rn - s.reg rm
  | .cmp_i rn imm => s.reg rn - imm
  | .add_i _ _ rn imm => s.reg rn + imm
  | .add_r _ _ rn rm => s.reg rn + s.reg rm
  | .sub_i _ _ rn imm => s.reg rn - imm
  | .sub_r _ _ rn rm => s.reg rn - s.reg rm
  | .and_i _ _ rn imm => Int.land (s.reg rn) imm
  | .and_r _ _ rn rm => Int.land (s.reg rn) (s.reg rm)
  | .orr_i _ _ rn imm => Int.lor (s.reg rn) imm
  | .orr_r _ _ rn rm => Int.lor (s.reg rn) (s.reg rm)
  | .eor_i _ _ rn imm => Int.xor (s.reg rn) imm
  | .eor_r _ _ rn rm => Int.xor (s.reg rn) (s.reg rm)
  | _ => 0

/-- The taken-condition of each conditional branch, as decided by the
source from the N/Z flags. -/
def branchTaken (i : Instr) (s : SimState) : Bool :=
  match i with
  | .beq _ => s.z_flag
  | .bne _ => !s.z_flag
  | .blt _ => s.n_flag
  | .ble _ => s.n_flag || s.z_flag
  | .bgt _ => !s.z_flag && !s.n_flag
  | .bge _ => !s.n_flag
  | .bmi _ => s.n_flag
  | .bpl _ => !s.n_flag || s.z_flag
  | _ => false

/-- The conditional branches whose dispatch arm contains the flag-use
penalty check (all of them except b.mi). -/
def flagPenaltyBranches (lab : String) : List Instr :=
  [Instr.beq lab, Instr.bne lab, Instr.blt lab, Instr.ble lab,
   Instr.bgt lab, Instr.bge lab, Instr.bpl lab]

/-- The signedness flag chosen by the source's `.dword` parser for a value
n: `signed = not (0 <= n <= 255 ** 8)` (parse, line 375). -/
def dwordSigned (n : Int) : Bool := ! decide (0 ≤ n ∧ n ≤ 255 ^ 8)

/-- The 8 bytes the source's `.dword` parser appends to `mem` for one value
(parse, line 376); `none` models the OverflowError of int.to_bytes. -/
def dwordEncode (n : Int) : Option (List Nat) := intToBytesLE n 8 (dwordSigned n)

/-- Helper lemma: natToBytesLE always produces exactly its requested
length. -/
theorem natToBytesLE_length (n k : Nat) : (natToBytesLE n k).length = k := by
  induction k generalizing n with
  | zero => rfl
  | succ k ih => simp [natToBytesLE, ih]

/-- Helper lemma: splitting a remainder modulo 256 ^ (k+1) into its lowest
base-256 digit and the remainder of the quotient. -/
theorem digit_mod (n k : Nat) :
    n % 256 + 256 * (n / 256 % 256 ^ k) = n % 256 ^ (k + 1) := by
  have h2 : n / 256 = 256 ^ k * (n / 256 / 256 ^ k) + n / 256 % 256 ^ k :=
    (Nat.div_add_mod _ _).symm
  have h3 : n / 256 % 256 ^ k < 256 ^ k :=
    Nat.mod_lt _ (Nat.pos_pow_of_pos k (by norm_num))
  have h4 : n % 256 < 256 := Nat.mod_lt _ (by norm_num)
  have key : n = 256 ^ (k + 1) * (n / 256 / 256 ^ k) +
      (n % 256 + 256 * (n / 256 % 256 ^ k)) := by
    conv_lhs => rw [(Nat.div_add_mod n 256).symm]
    rw [pow_succ]
    calc 256 * (n / 256) + n % 256
        = 256 * (256 ^ k * (n / 256 / 256 ^ k) + n / 256 % 256 ^ k) + n % 256 := by
          rw [← h2]
      _ = 256 ^ k * 256 * (n / 256 / 256 ^ k) +
          (n % 256 + 256 * (n / 256 % 256 ^ k)) := by ring
  conv_rhs => rw [key]
  rw [Nat.add_comm (256 ^ (k + 1) * (n / 256 / 256 ^ k)) _, Nat.add_mul_mod_self_left]
  have hlt : n % 256 + 256 * (n / 256 % 256 ^ k) < 256 ^ (k + 1) := by
    have : 256 * (n / 256 % 256 ^ k) + 256 ≤ 256 * 256 ^ k := by omega
    rw [pow_succ]
    omega
  exact (Nat.mod_eq_of_lt hlt).symm

/-- Helper lemma: decoding an encoded little-endian value recovers it
modulo 256 ^ k. -/
theorem natFromBytesLE_natToBytesLE (n k : Nat) :
    natFromBytesLE (natToBytesLE n k) = n % 256 ^ k := by
  induction k generalizing n with
  | zero => simp [natToBytesLE, natFromBytesLE, Nat.mod_one]
  | succ k ih =>
    rw [natToBytesLE, natFromBytesLE, ih, digit_mod]

/-- Observation helper: the value of register r in the result state of a
successful execution, `none` when the execution raised. -/
def regOut (e : Except String SimState) (r : RegName) : Option Int :=
  match e with
  | Except.ok s1 => some (s1.reg r)
  | Except.error _ => none

/-- Helper lemma: bumping a hit-count dict at a present key increments the
looked-up count. -/
theorem hitLookup_hitBump (l : List (String × Nat)) (k : String) (c : Nat)
    (h : hitLookup l k = some c) :
    hitLookup (hitBump l k) k = some (c + 1) := by
  induction l with
  | nil => simp [hitLookup] at h
  | cons p rest ih =>
    by_cases hk : p.1 = k
    · have hb : (p.1 == k) = true := by simp [hk]
      simp only [hitLookup, hb, if_true, Option.some.injEq] at h
      simp [hitLookup, hitBump, hb, h]
    · have hb : (p.1 == k) = false := by simp [hk]
      simp only [hitLookup, hb, Bool.false_eq_true, if_false] at h
      simp only [hitLookup, hitBump, hb, Bool.false_eq_true, if_false]
      exact ih h

/-- C10: `reset` zeroes every register, empties memory, the instruction
stream and the symbol table, clears both flags, the program counter, the
cycle and execute counters, the four hazard scalars (back to their initial
-1 / none values), forbidden_instructions, linked_labels and the
require_recursion / forbid_recursion / forbid_loops flags, and leaves
check_dead_code, recursive_labels, brk and original_break unchanged. -/
theorem C10_reset_frame (s : SimState) :
    (∀ r, (reset s).reg r = 0) ∧
    (reset s).mem = [] ∧
    (reset s).asm = [] ∧
    (∀ k, (reset s).sym_table k = none) ∧
    (reset s).n_flag = false ∧
    (reset s).z_flag = false ∧
    (reset s).pc = 0 ∧
    (reset s).cycle_count = 0 ∧
    (reset s).execute_count = 0 ∧
    (reset s).ld_cycle = -1 ∧
    (reset s).ld_dst = none ∧
    (reset s).flag_cycle = -1 ∧
    (reset s).last_dst = none ∧
    (reset s).forbidden_instructions = [] ∧
    (reset s).linked_labels = [] ∧
    (reset s).require_recursion = false ∧
    (reset s).forbid_recursion = false ∧
    (reset s).forbid_loops = false ∧
    (reset s).check_dead_code = s.check_dead_code ∧
    (reset s).recursive_labels = s.recursive_labels ∧
    (reset s).brk = s.brk ∧
    (reset s).original_break = s.original_break := by
  refine ⟨fun r => rfl, rfl, rfl, fun k => rfl, rfl, rfl, rfl, rfl, rfl, rfl,
    rfl, rfl, rfl, rfl, rfl, rfl, rfl, rfl, rfl, rfl, rfl, rfl⟩

/-- C8: after the run loop executes any instruction line (whatever its
destination register, xzr included), the loop's xzr reset leaves register
xzr equal to 0 before the next line is fetched. -/
theorem C8_xzr_zero (i : Instr) (s : SimState) (recursed : List String)
    (out : SimState × List String)
    (h : runStep (Line.instr i) s recursed = Except.ok out) :
    out.1.reg RegName.xzr = 0 := by
  simp only [runStep] at h
  split at h
  · exact absurd h (by simp)
  split at h
  · exact absurd h (by simp)
  split at h
  · exact absurd h (by simp)
  split at h
  · exact absurd h (by simp)
  · rename_i s1 heq
    simp only [Except.ok.injEq] at h
    subst h
    simp [setReg]

/-- Concrete state for the C8 witness: sixteen-byte-aligned stack pointer
inside the stack window. -/
def c8state : SimState :=
  { baseState with reg := setReg baseState.reg RegName.sp 4095 }

/-- Witness for C8 at a concrete instruction (mov x0, 1). -/
theorem C8_xzr_zero_witness :
    (runStep (Line.instr (Instr.mov_i RegName.x0 1)) c8state []).map
      (fun out => out.1.reg RegName.xzr) = Except.ok 0 := by
  obtain ⟨out, hout⟩ :
      ∃ out, runStep (Line.instr (Instr.mov_i RegName.x0 1)) c8state [] =
        Except.ok out := ⟨_, rfl⟩
  rw [hout]
  simp [Except.map, C8_xzr_zero _ _ _ _ hout]

/-- Concrete state for the C9 counterexample: the fetched line is the bare
label `foo:` but sp is -1. -/
def c9state : SimState :=
  { baseState with
    reg := setReg baseState.reg RegName.sp (-1)
    asm := [Line.label "foo"]
    label_hit_counts := [("foo:", 0)] }

/-- C9 counterexample: with the fetched line a bare label and sp = -1 the
run-loop body raises the stack-overflow error instead of advancing, because
the source applies the three stack checks before testing whether the line
is a label; the claim asserts the label line advances without error
regardless of sp. -/
theorem C9_label_counterexample :
    runStep (Line.label "foo") c9state [] = Except.error "stack overflow" := rfl

/-- C9 (amended): the stack checks sp at 0 or above, sp at most STACK_SIZE
and (sp+1) divisible by 16 are applied to every fetched line, bare labels
included; when they pass, a bare-label line increments that label's hit
count and advances the program counter by one without error. -/
theorem C9_label_step_amended (s : SimState) (name : String)
    (recursed : List String) (cnt : Nat)
    (h0 : 0 ≤ s.reg RegName.sp) (h1 : s.reg RegName.sp ≤ STACK_SIZE)
    (h2 : (s.reg RegName.sp + 1) % 16 = 0)
    (h3 : hitLookup s.label_hit_counts (name ++ ":") = some cnt) :
    runStep (Line.label name) s recursed =
      Except.ok
        ({ s with
            pc := s.pc + 1,
            label_hit_counts := hitBump s.label_hit_counts (name ++ ":") },
          recursed) ∧
    hitLookup (hitBump s.label_hit_counts (name ++ ":")) (name ++ ":") =
      some (cnt + 1) := by
  constructor
  · simp only [runStep]
    rw [if_neg (by omega), if_neg (by simp only [STACK_SIZE] at h1 ⊢; omega),
      if_neg (by omega), h3]
  · exact hitLookup_hitBump _ _ _ h3

/-- Concrete state for the C9 witness. -/
def c9wit : SimState :=
  { baseState with
    reg := setReg baseState.reg RegName.sp 15
    label_hit_counts := [("foo:", 2)] }

/-- Witness for C9 (amended) at a concrete state. -/
theorem C9_label_step_amended_witness :
    runStep (Line.label "foo") c9wit [] =
      Except.ok
        ({ c9wit with
            pc := c9wit.pc + 1,
            label_hit_counts := hitBump c9wit.label_hit_counts ("foo" ++ ":") },
          []) ∧
    hitLookup (hitBump c9wit.label_hit_counts ("foo" ++ ":")) ("foo" ++ ":") =
      some 3 :=
  C9_label_step_amended c9wit "foo" [] 2 (by decide) (by decide) (by decide)
    (by decide)

/-- Concrete state for C3: reg[x1] = -7 and reg[x2] = 2. -/
def c3state : SimState :=
  { baseState with
    reg := setReg (setReg baseState.reg RegName.x1 (-7)) RegName.x2 2 }

/-- C3 counterexample: truncated-toward-zero division of -7 by 2 gives -3,
but executing `udiv x0, x1, x2` on reg[x1] = -7, reg[x2] = 2 leaves
reg[x0] = -4, because the source uses Python floor division. -/
theorem C3_div_counterexample :
    Int.tdiv (-7) 2 = -3 ∧
    regOut (execute (Instr.udiv RegName.x0 RegName.x1 RegName.x2) c3state)
      RegName.x0 = some (-4) ∧
    ((-4 : Int) ≠ -3) := by decide

/-- C3 (amended): for reg[rm] not 0, `udiv` and `sdiv` both set reg[rd] to
the floor (toward negative infinity) quotient of reg[rn] by reg[rm] - so
-7 divided by 2 gives -4 - and the two mnemonics compute the same function
of the operands; division by zero raises an error. -/
theorem C3_div_amended (rd rn rm : RegName) (s : SimState)
    (hz : s.reg rm ≠ 0) :
    regOut (execute (Instr.udiv rd rn rm) s) rd =
      some (Int.fdiv (s.reg rn) (s.reg rm)) ∧
    regOut (execute (Instr.sdiv rd rn rm) s) rd =
      regOut (execute (Instr.udiv rd rn rm) s) rd := by
  constructor <;> simp [execute, hz, setReg, regOut]

/-- Witness for C3 (amended) at the concrete operands -7 and 2. -/
theorem C3_div_amended_witness :
    regOut (execute (Instr.udiv RegName.x0 RegName.x1 RegName.x2) c3state)
      RegName.x0 =
      some (Int.fdiv (c3state.reg RegName.x1) (c3state.reg RegName.x2)) ∧
    regOut (execute (Instr.sdiv RegName.x0 RegName.x1 RegName.x2) c3state)
      RegName.x0 =
      regOut (execute (Instr.udiv RegName.x0 RegName.x1 RegName.x2) c3state)
        RegName.x0 :=
  C3_div_amended RegName.x0 RegName.x1 RegName.x2 c3state (by decide)

/-- C6 counterexample: the value 255^8 + 1 lies inside [0, 256^8], where
the claim prescribes the unsigned encoding, yet the parser computes
signed = true for it (the source's bound is 255 ** 8, not 256 ** 8), and
the signed conversion then overflows instead of appending 8 bytes. -/
theorem C6_dword_counterexample :
    dwordSigned (255 ^ 8 + 1) = true ∧
    (0 ≤ (255 ^ 8 + 1 : Int) ∧ (255 ^ 8 + 1 : Int) ≤ 256 ^ 8) ∧
    dwordEncode (255 ^ 8 + 1) = none := by decide

/-- C6 (amended): for each value v of a `.dword` declaration the parser
chooses the unsigned encoding iff v lies in [0, 255^8] (signed otherwise);
whenever the chosen conversion succeeds it appends exactly 8 little-endian
bytes, and it fails (OverflowError at parse time) exactly when v exceeds
255^8 or is below -(2^63). -/
theorem C6_dword_amended (v : Int) :
    (dwordSigned v = false ↔ (0 ≤ v ∧ v ≤ 255 ^ 8)) ∧
    (∀ bs, dwordEncode v = some bs → bs.length = 8) ∧
    (dwordEncode v = none ↔ (255 ^ 8 < v ∨ v < -(2 ^ 63))) := by
  have h255 : (255 : Int) ^ 8 = 17878103347812890625 := by norm_num
  have e1 : (2 : Int) ^ (8 * 8 - 1) = 9223372036854775808 := by norm_num
  have e2 : (2 : Int) ^ (8 * 8) = 18446744073709551616 := by norm_num
  have e3 : (2 : Int) ^ 63 = 9223372036854775808 := by norm_num
  refine ⟨?_, ?_, ?_⟩
  · simp [dwordSigned]
  · intro bs hbs
    rw [dwordEncode, intToBytesLE] at hbs
    split at hbs
    · split at hbs
      · cases hbs
        exact natToBytesLE_length _ _
      · cases hbs
    · split at hbs
      · cases hbs
        exact natToBytesLE_length _ _
      · cases hbs
  · by_cases hs : 0 ≤ v ∧ v ≤ 17878103347812890625
    · have hsgn : dwordSigned v = false := by simp [dwordSigned, h255, hs]
      have hv2 : 0 ≤ v ∧ v < (2 : Int) ^ (8 * 8) := by
        refine ⟨hs.1, ?_⟩
        have h2 := hs.2
        rw [e2]
        omega
      have henc : dwordEncode v = some (natToBytesLE v.toNat 8) := by
        rw [dwordEncode, hsgn, intToBytesLE]
        rw [if_neg Bool.false_ne_true, if_pos hv2]
      rw [henc, h255, e3]
      constructor
      · intro hnone; cases hnone
      · intro hv
        exfalso
        have h2 := hs.2
        omega
    · have hsgn : dwordSigned v = true := by simp [dwordSigned, h255, hs]
      have hout : 17878103347812890625 < v ∨ v < 0 := by omega
      rw [dwordEncode, hsgn, intToBytesLE, if_pos rfl, h255, e3]
      constructor
      · intro hnone
        split at hnone
        · cases hnone
        · rename_i hr
          norm_num at hr
          omega
      · intro hv
        split
        · rename_i hr
          exfalso
          omega
        · rfl

/-- Observation helper: the cycle counter of the result state of a
successful execution, `none` when the execution raised. -/
def cycOut (e : Except String SimState) : Option Int :=
  match e with
  | Except.ok s1 => some s1.cycle_count
  | Except.error _ => none

/-- Concrete state for the C5 counterexample: the flags were written on the
immediately preceding cycle (flag_cycle = cycle_count = 0), N is clear, and
the branch target exists. -/
def c5state : SimState :=
  { baseState with asm := [Line.label "loop"], flag_cycle := 0 }

/-- C5 counterexample: b.mi executed with current_cycle - flag_cycle = 0
(which is at most 1) adds no flag-use penalty: the untaken branch costs
exactly the base 1 cycle, not the 1 + 1 the claim requires, because the
source's b.mi arm has no flag_cycle check. -/
theorem C5_bmi_counterexample :
    c5state.cycle_count - c5state.flag_cycle ≤ 1 ∧
    cycOut (execute (Instr.bmi "loop") c5state) = some 1 ∧
    ((1 : Int) ≠ c5state.cycle_count + 2 +
      (if branchTaken (Instr.bmi "loop") c5state then 1 else 0)) := by decide

/-- C5 (amended): executed when current_cycle - flag_cycle is at most 1,
the conditional branches b.eq, b.ne, b.lt, b.le, b.gt, b.ge and b.pl add a
+1 flag-use penalty on top of the base cycle, plus the +1 taken-branch
penalty when taken (total cycle_count + 2, or + 3 when taken); b.mi alone
carries no flag-use check and adds only the base cycle plus the taken
penalty. -/
theorem C5_flag_penalty_amended (s : SimState) (lab : String) (s1 : SimState)
    (hflag : s.cycle_count - s.flag_cycle ≤ 1) :
    (∀ i, i ∈ flagPenaltyBranches lab → execute i s = Except.ok s1 →
      s1.cycle_count = s.cycle_count + 2 +
        (if branchTaken i s then 1 else 0)) ∧
    (execute (Instr.bmi lab) s = Except.ok s1 →
      s1.cycle_count = s.cycle_count + 1 +
        (if branchTaken (Instr.bmi lab) s then 1 else 0)) := by
  constructor
  · intro i hi h
    simp only [flagPenaltyBranches, List.mem_cons, List.not_mem_nil, or_false] at hi
    rcases hi with rfl | rfl | rfl | rfl | rfl | rfl | rfl <;>
      (simp only [execute] at h
       rw [if_pos hflag] at h
       split at h
       · split at h
         · cases h
         · cases h
           simp only [branchTaken]
           split
           · omega
           · rename_i hcontra
             simp_all
       · cases h
         simp only [branchTaken]
         split
         · rename_i hcontra
           simp_all
         · omega)
  · intro h
    simp only [execute] at h
    split at h
    · split at h
      · cases h
      · cases h
        simp only [branchTaken]
        split
        · omega
        · rename_i hcontra
          simp_all
    · cases h
      simp only [branchTaken]
      split
      · rename_i hcontra
        simp_all
      · omega

/-- Concrete state for the C5 witness: Z set, flags written on the
preceding cycle, branch target present. -/
def c5wit : SimState :=
  { baseState with asm := [Line.label "loop"], flag_cycle := 0, z_flag := true }

/-- Witness for C5 (amended): a taken b.eq right after the flag writer
costs 3 cycles (base 1 + flag-use 1 + taken 1). -/
theorem C5_flag_penalty_amended_witness :
    cycOut (execute (Instr.beq "loop") c5wit) = some 3 := by
  obtain ⟨s1, h1⟩ : ∃ s1, execute (Instr.beq "loop") c5wit = Except.ok s1 :=
    ⟨_, rfl⟩
  have h2 := (C5_flag_penalty_amended c5wit "loop" s1 (by decide)).1
    (Instr.beq "loop") (by simp [flagPenaltyBranches]) h1
  rw [h1]
  simp only [cycOut]
  rw [h2]
  decide

set_option maxHeartbeats 1000000 in
/-- C7: the N and Z flags are written only by cmp and the s-suffixed forms
adds/subs/ands/orrs/eors; every such write leaves N = (result < 0) and
Z = (result = 0) where for cmp the result is reg[rn] minus the second
operand, and no other successfully executed instruction changes n_flag or
z_flag. -/
theorem C7_flags (i : Instr) (s : SimState) (s1 : SimState)
    (h : execute i s = Except.ok s1) :
    (writesFlags i = false → s1.n_flag = s.n_flag ∧ s1.z_flag = s.z_flag) ∧
    (writesFlags i = true → s1.n_flag = decide (flagResult i s < 0) ∧
      s1.z_flag = decide (flagResult i s = 0)) := by
  cases i <;>
    (simp only [execute] at h
     repeat' split at h) <;>
    (try cases h) <;>
    first
      | exact ⟨fun _ => ⟨rfl, rfl⟩, fun hw => Bool.noConfusion hw⟩
      | (constructor <;> intro hw <;>
          simp_all [writesFlags, flagResult, sub_neg, sub_eq_zero])

/-- The state produced by executing cmp x0, 1 on the initial state. -/
def c7post : SimState :=
  { baseState with
    cycle_count := 1
    execute_count := 1
    z_flag := false
    n_flag := true
    flag_cycle := 0
    last_dst := some RegName.x0 }

/-- Witness for C7 at the concrete instruction cmp x0, 1 on the initial
state (flags become N = true, Z = false). -/
theorem C7_flags_witness :
    (writesFlags (Instr.cmp_i RegName.x0 1) = true →
      c7post.n_flag = decide (flagResult (Instr.cmp_i RegName.x0 1) baseState < 0) ∧
      c7post.z_flag = decide (flagResult (Instr.cmp_i RegName.x0 1) baseState = 0)) ∧
    c7post.n_flag = true ∧ c7post.z_flag = false :=
  ⟨(C7_flags (Instr.cmp_i RegName.x0 1) baseState c7post rfl).2, rfl, rfl⟩

/-- Witness for C6 (amended) at the concrete value 7. -/
theorem C6_dword_amended_witness :
    ([7, 0, 0, 0, 0, 0, 0, 0] : List Nat).length = 8 ∧ dwordSigned 7 = false :=
  ⟨(C6_dword_amended 7).2.1 [7, 0, 0, 0, 0, 0, 0, 0] (by decide),
    (C6_dword_amended 7).1.mpr (by decide)⟩

/-- Helper lemma: an 8-byte little-endian encoding decodes to the encoded
value when it is below 2 ^ 64. -/
theorem natFromBytesLE_roundtrip8 (m : Nat) (hm : m < 18446744073709551616) :
    natFromBytesLE (natToBytesLE m 8) = m := by
  rw [natFromBytesLE_natToBytesLE]
  apply Nat.mod_eq_of_lt
  have h : (256 : Nat) ^ 8 = 18446744073709551616 := by norm_num
  omega

/-- Helper lemma: the unsigned byte decode is the plain base-256 value. -/
theorem bytesToIntLE_unsigned (bs : List Nat) :
    bytesToIntLE false bs = (natFromBytesLE bs : Int) := by
  simp [bytesToIntLE]

/-- Helper lemma: slicing a list from 0 to its length (Python m[0:len])
returns the whole list. -/
theorem pySlice_full (m : List Nat) : pySlice m 0 (m.length : Int) = m := by
  simp only [pySlice, pyIdx]
  rw [if_neg (by omega), if_neg (by omega)]
  simp

/-- A machine state whose whole memory is the byte list bs and whose
registers (in particular x0, the load base, and sp) are all 0, so address
0 is inside the valid window for an 8-byte access when bs has 8 bytes. -/
def c2mem (bs : List Nat) : SimState := { baseState with mem := bs }

/-- Helper lemma: evaluating `ldur x1, [x0]` at address 0 on a state whose
memory is exactly the 8 loaded bytes yields their unsigned little-endian
value. -/
theorem ldur_b_zero_eval (bs : List Nat) (hlen : bs.length = 8) :
    regOut (execute (Instr.ldur_b RegName.x1 RegName.x0) (c2mem bs))
      RegName.x1 = some ((natFromBytesLE bs : Int)) := by
  have hfull : pySlice bs 0 8 = bs := by
    have h8 : (8 : Int) = ((bs.length : Nat) : Int) := by
      rw [hlen]; norm_num
    rw [h8, pySlice_full]
  simp only [execute, c2mem, baseState]
  rw [if_neg (by simp [hlen])]
  simp [regOut, setReg, hfull, bytesToIntLE_unsigned]

/-- C2 counterexample: -1 is in the signed 64-bit range, `.dword -1` emits
the two's-complement bytes ff..ff, the address 0 with sp = 0 and an 8-byte
memory is in the valid window, yet `ldur x1, [x0]` loads 2^64 - 1, not -1,
because the source decodes ldur without signed=True. -/
theorem C2_dword_roundtrip_counterexample :
    ((-(2 ^ 63) : Int) ≤ -1) ∧
    dwordEncode (-1) = some [255, 255, 255, 255, 255, 255, 255, 255] ∧
    regOut (execute (Instr.ldur_b RegName.x1 RegName.x0)
        (c2mem [255, 255, 255, 255, 255, 255, 255, 255])) RegName.x1 =
      some (2 ^ 64 - 1) ∧
    ((2 ^ 64 - 1 : Int) ≠ -1) := by decide

/-- C2 (amended): for v in the signed 64-bit range, declaring `a:.dword v`
appends 8 bytes which `ldur rt,[rn]` (base address in the valid window)
loads back as v when 0 ≤ v, and as v + 2^64 when v < 0: the round-trip of
the claim holds only for non-negative v, because the ldur decode is
unsigned. -/
theorem C2_dword_roundtrip_amended (v : Int)
    (h1 : -(2 ^ 63) ≤ v) (h2 : v < 2 ^ 63) :
    ∃ bs, dwordEncode v = some bs ∧
      regOut (execute (Instr.ldur_b RegName.x1 RegName.x0) (c2mem bs))
        RegName.x1 = some (if 0 ≤ v then v else v + 2 ^ 64) := by
  have e1 : (2 : Int) ^ (8 * 8 - 1) = 9223372036854775808 := by norm_num
  have e2 : (2 : Int) ^ (8 * 8) = 18446744073709551616 := by norm_num
  have e3 : (2 : Int) ^ 63 = 9223372036854775808 := by norm_num
  have e4 : (2 : Int) ^ 64 = 18446744073709551616 := by norm_num
  have h1n : -(9223372036854775808 : Int) ≤ v := by rw [e3] at h1; exact h1
  have h2n : v < (9223372036854775808 : Int) := by rw [e3] at h2; exact h2
  by_cases h0 : 0 ≤ v
  · have hs : 0 ≤ v ∧ v ≤ 17878103347812890625 := ⟨h0, by omega⟩
    have hsgn : dwordSigned v = false := by
      have h255 : (255 : Int) ^ 8 = 17878103347812890625 := by norm_num
      simp [dwordSigned, h255, hs]
    have henc : dwordEncode v = some (natToBytesLE v.toNat 8) := by
      rw [dwordEncode, hsgn, intToBytesLE, if_neg Bool.false_ne_true,
        if_pos ⟨h0, by rw [e2]; omega⟩]
    refine ⟨_, henc, ?_⟩
    rw [ldur_b_zero_eval _ (natToBytesLE_length _ _)]
    rw [natFromBytesLE_roundtrip8 _ (by omega), if_pos h0]
    congr 1
    omega
  · have hsgn : dwordSigned v = true := by
      have h255 : (255 : Int) ^ 8 = 17878103347812890625 := by norm_num
      have hnot : ¬ (0 ≤ v ∧ v ≤ (17878103347812890625 : Int)) :=
        fun hc => h0 hc.1
      simp [dwordSigned, h255, hnot]
    have henc : dwordEncode v =
        some (natToBytesLE (v % 2 ^ (8 * 8)).toNat 8) := by
      rw [dwordEncode, hsgn, intToBytesLE, if_pos rfl,
        if_pos ⟨by rw [e1]; omega, by rw [e1]; omega⟩]
    refine ⟨_, henc, ?_⟩
    rw [ldur_b_zero_eval _ (natToBytesLE_length _ _)]
    rw [natFromBytesLE_roundtrip8 _ (by rw [e2]; omega), if_neg h0]
    congr 1
    omega

/-- Witness for C2 (amended) at the concrete value 5. -/
theorem C2_dword_roundtrip_amended_witness :
    ∃ bs, dwordEncode 5 = some bs ∧
      regOut (execute (Instr.ldur_b RegName.x1 RegName.x0) (c2mem bs))
        RegName.x1 = some (if (0 : Int) ≤ 5 then 5 else 5 + 2 ^ 64) :=
  C2_dword_roundtrip_amended 5 (by decide) (by decide)

/-- Concrete post-parse-shaped state for the C4 counterexample: 16 bytes of
memory, original_break = brk = 16, and a brk call requesting
original_break + 1 (x8 = 214, x0 = 17). -/
def c4state : SimState :=
  { baseState with
    mem := List.replicate 16 0
    original_break := 16
    brk := 16
    reg := setReg (setReg (setReg baseState.reg RegName.sp 15) RegName.x8 214)
      RegName.x0 17 }

/-- C4 counterexample: brk(original_break + 1) leaves x0 = original_break
+ 1 = 17 (the grow path of the source never writes x0), not original_break
+ 4096 = 4112 as the claim requires. -/
theorem C4_brk_counterexample :
    c4state.reg RegName.x0 = c4state.original_break + 1 ∧
    regOut (execute (Instr.svc [] []) c4state) RegName.x0 = some 17 ∧
    ((17 : Int) ≠ c4state.original_break + 4096) := by decide

/-- Helper lemma: the length of the Python prefix slice m[0:k] for
0 ≤ k ≤ len(m). -/
theorem pySlice_prefix_length (m : List Nat) (k : Int)
    (h0 : 0 ≤ k) (hk : k ≤ (m.length : Int)) :
    ((pySlice m 0 k).length : Int) = k := by
  simp only [pySlice, pyIdx]
  rw [if_neg (by omega), if_neg (by omega)]
  simp only [List.length_drop, List.length_take]
  omega

/-- C4 (amended): from a post-parse state (brk = original_break =
len(mem) = ob), the brk syscall with x0 = ob + 1 grows memory by exactly
4096 bytes, sets brk to ob + 1, and returns ob + 1 in x0 (not ob + 4096);
a subsequent brk with x0 = ob shrinks memory back to ob bytes, sets brk to
ob and returns ob in x0. -/
theorem C4_brk_amended (s : SimState) (ob : Int)
    (hob : s.original_break = ob) (hbrk : s.brk = ob)
    (hlen : (s.mem.length : Int) = ob)
    (hx8 : s.reg RegName.x8 = 214) (hx0 : s.reg RegName.x0 = ob + 1) :
    ∃ s1, execute (Instr.svc [] []) s = Except.ok s1 ∧
      (s1.mem.length : Int) = ob + 4096 ∧
      s1.reg RegName.x0 = ob + 1 ∧ s1.brk = ob + 1 ∧
      ∃ s2, execute (Instr.svc [] [])
          { s1 with reg := setReg s1.reg RegName.x0 ob } = Except.ok s2 ∧
        (s2.mem.length : Int) = ob ∧ s2.reg RegName.x0 = ob ∧ s2.brk = ob := by
  have hpage : ((s.reg RegName.x0 - s.original_break + 4096) -
      (s.reg RegName.x0 - s.original_break) % 4096).toNat = 4096 := by
    rw [hx0, hob]
    omega
  have hstep1 : execute (Instr.svc [] []) s =
      Except.ok { s with
        cycle_count := s.cycle_count + 1
        execute_count := s.execute_count + 1
        last_dst := none
        mem := s.mem ++ List.replicate 4096 0
        brk := s.reg RegName.x0 } := by
    simp only [execute, HEAP_SIZE]
    rw [if_neg (by rw [hx8]; norm_num), if_neg (by rw [hx8]; norm_num),
      if_neg (by rw [hx8]; norm_num), if_pos hx8,
      if_neg (by rw [hx0, hob]; omega), if_neg (by rw [hx0, hob]; omega),
      if_neg (by rw [hx0, hob]; omega), if_neg (by rw [hlen, hx0, hob]; omega),
      hpage]
  refine ⟨_, hstep1, ?_, hx0, hx0, ?_⟩
  · simp only [List.length_append, List.length_replicate]
    push_cast
    omega
  · have ht8 : (setReg (s.reg) RegName.x0 ob) RegName.x8 = 214 := by
      simp [setReg, hx8]
    have ht0 : (setReg (s.reg) RegName.x0 ob) RegName.x0 = ob := by
      simp [setReg]
    have hstep2 : execute (Instr.svc [] [])
        { { s with
              cycle_count := s.cycle_count + 1
              execute_count := s.execute_count + 1
              last_dst := none
              mem := s.mem ++ List.replicate 4096 0
              brk := s.reg RegName.x0 } with
          reg := setReg (s.reg) RegName.x0 ob } =
        Except.ok { s with
          cycle_count := s.cycle_count + 1 + 1
          execute_count := s.execute_count + 1 + 1
          last_dst := none
          reg := setReg (setReg (s.reg) RegName.x0 ob) RegName.x0 ob
          mem := pySlice (s.mem ++ List.replicate 4096 0) 0 s.original_break
          brk := ob } := by
      simp only [execute]
      rw [if_neg (by rw [ht8]; norm_num), if_neg (by rw [ht8]; norm_num),
        if_neg (by rw [ht8]; norm_num), if_pos ht8,
        if_neg (by rw [ht0, hob]; omega), if_pos (by rw [ht0, hob]), ht0]
    refine ⟨_, hstep2, ?_, ?_, rfl⟩
    · rw [hob]
      apply pySlice_prefix_length
      · omega
      · simp only [List.length_append, List.length_replicate]
        push_cast
        omega
    · simp [setReg]

/-- Concrete state for the C1 counterexample: 5 bytes of memory, every
register (including sp and the base x0) 0. -/
def c1state : SimState := { baseState with mem := [0, 0, 0, 0, 0] }

/-- C1 counterexample: `ldursw x1, [x0, 2]` has access width 4 and
effective address 2, so the claim requires the access to fail
(2 + 4 > 5 = len(mem)); the source checks `addr > len(mem) - 2` instead
and the access succeeds. -/
theorem C1_bounds_counterexample :
    memAccessWidth (Instr.ldursw_i RegName.x1 RegName.x0 2) = some 4 ∧
    (execute (Instr.ldursw_i RegName.x1 RegName.x0 2) c1state).isOk = true ∧
    ¬ (c1state.reg RegName.sp ≤
        effectiveAddr (Instr.ldursw_i RegName.x1 RegName.x0 2) c1state ∧
       effectiveAddr (Instr.ldursw_i RegName.x1 RegName.x0 2) c1state + 4 ≤
        (c1state.mem.length : Int)) := by decide

/-- Helper lemma: the signed 8-byte int.to_bytes succeeds exactly on the
signed 64-bit range. -/
theorem intToBytesLE_signed8_isSome (x : Int)
    (h1 : -(2 ^ 63) ≤ x) (h2 : x < 2 ^ 63) :
    intToBytesLE x 8 true = some (natToBytesLE (x % 2 ^ (8 * 8)).toNat 8) := by
  have e : (2 : Int) ^ (8 * 8 - 1) = 2 ^ 63 := by norm_num
  rw [intToBytesLE, if_pos rfl, if_pos (by rw [e]; exact ⟨h1, h2⟩)]

/-- Helper lemma: the unsigned 8-byte int.to_bytes succeeds exactly on the
unsigned 64-bit range. -/
theorem intToBytesLE_unsigned8_isSome (x : Int)
    (h1 : 0 ≤ x) (h2 : x < 2 ^ 64) :
    intToBytesLE x 8 false = some (natToBytesLE x.toNat 8) := by
  have e : (2 : Int) ^ (8 * 8) = 2 ^ 64 := by norm_num
  rw [intToBytesLE, if_neg Bool.false_ne_true, if_pos (by rw [e]; exact ⟨h1, h2⟩)]

set_option maxHeartbeats 1000000 in
/-- C1 (amended): for every load/store memory form, the access succeeds
iff sp ≤ addr and addr + W ≤ len(mem) where W is the form's CHECKED width
(`checkWidth`), assuming for stores that the stored register value is
encodable by int.to_bytes.  The checked width equals the architectural
access width except for `ldursw rt,[rn,imm]`, `ldursw rt,[rn,rm]` and all
three `sturw` forms, which check with 2 instead of 4, so the
claim's width-W window holds for all the other forms only. -/
theorem C1_bounds_amended (i : Instr) (s : SimState) (W : Nat)
    (hW : checkWidth i = some W) (hv : storeValOk i s) :
    (execute i s).isOk = true ↔
      (s.reg RegName.sp ≤ effectiveAddr i s ∧
        effectiveAddr i s + W ≤ (s.mem.length : Int)) := by
  cases i <;>
    first
      | exact Option.noConfusion hW
      | (simp only [checkWidth, Option.some.injEq] at hW
         subst hW
         simp only [execute]
         unfold effectiveAddr
         rw [apply_ite Except.isOk]
         simp only [Except.isOk, Except.toBool]
         split
         · rename_i hC
           simp
           omega
         · rename_i hC
           simp
           omega)
      | (simp only [checkWidth, Option.some.injEq] at hW
         subst hW
         simp only [storeValOk] at hv
         simp only [execute]
         unfold effectiveAddr
         first
           | rw [intToBytesLE_signed8_isSome _ hv.1 hv.2]
           | rw [intToBytesLE_unsigned8_isSome _ hv.1 hv.2]
         rw [apply_ite Except.isOk]
         simp only [Except.isOk, Except.toBool]
         split
         · rename_i hC
           simp
           omega
         · rename_i hC
           simp
           omega)

/-- Concrete state for the C1 witness: 8 bytes of memory, all registers 0. -/
def c1wit : SimState := { baseState with mem := [0, 0, 0, 0, 0, 0, 0, 0] }

/-- Witness for C1 (amended): an 8-byte load and an 8-byte store at
address 0 on an 8-byte memory with sp = 0 both succeed. -/
theorem C1_bounds_amended_witness :
    (execute (Instr.ldur_b RegName.x1 RegName.x0) c1wit).isOk = true ∧
    (execute (Instr.stur_b RegName.x1 RegName.x0) c1wit).isOk = true :=
  ⟨(C1_bounds_amended (Instr.ldur_b RegName.x1 RegName.x0) c1wit 8 rfl
      trivial).mpr (by decide),
   (C1_bounds_amended (Instr.stur_b RegName.x1 RegName.x0) c1wit 8 rfl
      ⟨by decide, by decide⟩).mpr (by decide)⟩

/-- Witness for C4 (amended) at the concrete state c4wit (ob = 16). -/
theorem C4_brk_amended_witness :
    ∃ s1, execute (Instr.svc [] []) c4state = Except.ok s1 ∧
      (s1.mem.length : Int) = 16 + 4096 ∧
      s1.reg RegName.x0 = 16 + 1 ∧ s1.brk = 16 + 1 ∧
      ∃ s2, execute (Instr.svc [] [])
          { s1 with reg := setReg s1.reg RegName.x0 16 } = Except.ok s2 ∧
        (s2.mem.length : Int) = 16 ∧ s2.reg RegName.x0 = 16 ∧ s2.brk = 16 :=
  C4_brk_amended c4state 16 rfl rfl (by decide) (by decide) (by decide)

end Armsim
